import Mathlib

/-
Verification of the IMDb Mini API (src/main.py) against its specification.

Strings are modelled as `List Char`. Python's `re.sub` with the pattern
`TAG_PATTERN = re.compile(r"#([A-Z0-9_]+)|{([^}]+)}")` is modelled by a
left-to-right scanner (`matchAt` / `render`): at each position the engine
first tries the hash alternative, then the brace alternative (the two
alternatives start with distinct characters, so the order is immaterial),
replaces the leftmost match and resumes scanning right after it.
-/

namespace Impy

/-- A Python string, modelled as its list of characters. -/
abbrev Str := List Char

/-- Membership in the regex character class `[A-Z0-9_]` of `TAG_PATTERN`
(src/main.py line 167), stated on code points. -/
def isTagChar (c : Char) : Bool :=
  (65 ≤ c.toNat && c.toNat ≤ 90) || (48 ≤ c.toNat && c.toNat ≤ 57) || c.toNat == 95

/-- Python `str.upper` on one character, restricted to the ASCII range that the
tag keys exercise: a lowercase letter is shifted down by 32, all else is kept. -/
def pyToUpper (c : Char) : Char :=
  if 97 ≤ c.toNat && c.toNat ≤ 122 then Char.ofNat (c.toNat - 32) else c

/-- The ASCII whitespace characters removed by Python `str.strip()`. -/
def isPySpace (c : Char) : Bool :=
  c.toNat == 32 || c.toNat == 9 || c.toNat == 10 || c.toNat == 13 ||
    c.toNat == 11 || c.toNat == 12

/-- Python `str.strip()`: drop whitespace from both ends. -/
def pyStrip (s : Str) : Str :=
  ((s.dropWhile isPySpace).reverse.dropWhile isPySpace).reverse

/-- Key normalization of `replacer` (src/main.py line 184):
`(tag1 or tag2 or "").upper().strip()`. -/
def pyNormalizeKey (raw : Str) : Str :=
  pyStrip (raw.map pyToUpper)

/-- A value stored in the tags dictionary built by `movie_details`
(src/main.py lines 132-148): Python `None`, a string, an int, or a list of
strings (list elements are modelled by their `str()` form, which is what
`", ".join(map(str, val))` consumes). A float field such as `rating` is
modelled by the string `str()` would print for it. -/
inductive Value where
  | vnone
  | vstr (s : Str)
  | vint (n : Int)
  | vlist (xs : List Str)
  deriving DecidableEq

/-- The tags dictionary: an association list with distinct keys, looked up by
`tags.get(key)`. -/
abbrev TagMap := List (Str × Value)

/-- Python `dict.get(key)`: the value of the first matching key, else `None`. -/
def lookupTag : TagMap → Str → Option Value
  | [], _ => none
  | (k, v) :: rest, key => if key = k then some v else lookupTag rest key

/-- Python `str(n)` for an `int`: decimal digits, with a leading minus sign
for negative values. -/
def intToStr (i : Int) : Str :=
  if i < 0 then '-' :: Nat.toDigits 10 i.natAbs else Nat.toDigits 10 i.toNat

/-- The body of `replacer` after the lookup (src/main.py lines 185-190):
`None` (from a missing key or a `None` value) becomes the empty string, a
list is joined with the two-character separator `", "`, anything else is
`str()`-ed. -/
def valToString : Option Value → Str
  | none => []
  | some Value.vnone => []
  | some (Value.vstr s) => s
  | some (Value.vint n) => intToStr n
  | some (Value.vlist xs) => List.intercalate (',' :: ' ' :: []) xs

/-- The `replacer` callback of `render_template` (src/main.py lines 181-190),
applied to the text captured by whichever group matched. -/
def replacer (tags : TagMap) (raw : Str) : Str :=
  valToString (lookupTag tags (pyNormalizeKey raw))

/-- One attempt of `TAG_PATTERN` at the current position: the hash alternative
`#([A-Z0-9_]+)` captures the maximal nonempty run of tag characters after
`#`; the brace alternative `{([^}]+)}` captures the nonempty run of
non-brace-close characters provided it is terminated by `}`. On success the
captured group and the remainder of the input after the match are returned. -/
def matchAt : List Char → Option (Str × Str)
  | [] => none
  | c :: cs =>
    if c = '#' then
      if cs.takeWhile isTagChar = [] then none
      else some (cs.takeWhile isTagChar, cs.dropWhile isTagChar)
    else if c = '{' then
      if cs.takeWhile (fun x => x != '}') = [] then none
      else
        match cs.dropWhile (fun x => x != '}') with
        | [] => none
        | _ :: rest => some (cs.takeWhile (fun x => x != '}'), rest)
    else none

/-- The scanning loop of `re.sub`, with explicit fuel so that the definition
is structural (the fuel is immaterial once it is at least the input length,
see `renderFuel_eq_of_le`): replace the leftmost match and resume after it,
otherwise emit one literal character and move on. -/
def renderFuel (tags : TagMap) : Nat → List Char → List Char
  | _, [] => []
  | 0, l => l
  | Nat.succ fuel, c :: cs =>
    match matchAt (c :: cs) with
    | some (k, rest) => replacer tags k ++ renderFuel tags fuel rest
    | none => c :: renderFuel tags fuel cs

/-- `render_template`'s core (src/main.py line 192):
`TAG_PATTERN.sub(replacer, template)`. -/
def render (tags : TagMap) (template : Str) : Str :=
  renderFuel tags template.length template

/-- One provider-supplied cast entry: `str(p)` (the display name) and
`getattr(p, "personID", None)`. -/
structure CastPerson where
  name : Str
  personID : Option Str
  deriving DecidableEq

/-- The raw provider movie object, holding exactly the fields `movie_details`
reads through `movie.get(key, default)` (src/main.py lines 101-130). A field
the provider omits is `none` (scalars) or `[]` (sequences, matching the
`or []` defaulting in the code). Numeric fields used only through `str()`
(`rating`, the elements of `runtimes`) are modelled by their printed form. -/
structure RawMovie where
  title : Option Str
  year : Option Int
  rating : Option Str
  votes : Option Int
  runtimes : List Str
  genres : List Str
  plot : List Str
  languages : List Str
  countries : List Str
  fullSizeCoverUrl : Option Str
  coverUrl : Option Str
  cover : Option Str
  kind : Option Str
  cast : List CastPerson
  directors : List Str
  writers : List Str
  deriving DecidableEq

/-- An `HTTPException(status_code=..., detail=...)`. -/
structure HTTPError where
  status : Nat
  detail : Str
  deriving DecidableEq

/-- Python truthiness of an optional string: `None` and `""` are falsy. -/
def truthy (o : Option Str) : Bool :=
  match o with
  | none => false
  | some s => !s.isEmpty

/-- Python `a or b` on optional strings: `a` if truthy, else `b`. -/
def pyOrS (a b : Option Str) : Option Str :=
  if truthy a then a else b

/-- The poster preference chain of `movie_details` and `get_poster`
(src/main.py lines 117-121 and 204-208):
`full-size cover url or cover url or cover`. -/
def posterOf (m : RawMovie) : Option Str :=
  pyOrS (pyOrS m.fullSizeCoverUrl m.coverUrl) m.cover

/-- Identifier normalization of `_get_movie_by_imdb_id` (src/main.py line 87):
`imdb_id[2:] if imdb_id.startswith("tt") else imdb_id`. -/
def stripTT (imdb_id : Str) : Str :=
  if ("tt".toList).isPrefixOf imdb_id then imdb_id.drop 2 else imdb_id

/-- `_get_movie_by_imdb_id` (src/main.py lines 86-94). The provider stands for
`ia.get_movie`: `Except.error e` models a raised exception with message `e`
(mapped to HTTP 500), `Except.ok none` a falsy empty movie (mapped to HTTP
404 "Movie not found"), `Except.ok (some m)` a found record. -/
def getMovieByImdbId (provider : Str → Except Str (Option RawMovie))
    (imdb_id : Str) : Except HTTPError RawMovie :=
  match provider (stripTT imdb_id) with
  | Except.error e => Except.error ⟨500, e⟩
  | Except.ok none => Except.error ⟨404, "Movie not found".toList⟩
  | Except.ok (some m) => Except.ok m

/-- The `cast_list` loop of `movie_details` (src/main.py lines 124-127): the
first 20 provider cast entries, each as a name / person-identifier pair. -/
def mkCastList (m : RawMovie) : List (Str × Option Str) :=
  (m.cast.take 20).map (fun p => (p.name, p.personID))

/-- Lift an optional string field into a tag value (`None` stays `None`). -/
def optStrVal (o : Option Str) : Value :=
  match o with
  | none => Value.vnone
  | some s => Value.vstr s

/-- Lift an optional int field into a tag value. -/
def optIntVal (o : Option Int) : Value :=
  match o with
  | none => Value.vnone
  | some n => Value.vint n

/-- The `tags` dictionary literal of `movie_details` (src/main.py lines
132-148), in source order. `DURATION` is `runtimes[0] if runtimes else None`,
`STORY_LINE` is the first plot element if any, `ACTORS` the names of the
`cast_list` entries, and `IMDB_URL` interpolates the `imdb_id` argument as
passed by the caller. -/
def mkTags (m : RawMovie) (imdb_id : Str) : TagMap :=
  [ ("TITLE".toList, optStrVal m.title),
    ("YEAR".toList, optIntVal m.year),
    ("RATING".toList, optStrVal m.rating),
    ("VOTES".toList, optIntVal m.votes),
    ("DURATION".toList, optStrVal m.runtimes.head?),
    ("GENRE".toList, Value.vlist m.genres),
    ("LANGUAGE".toList, Value.vlist m.languages),
    ("COUNTRY_OF_ORIGIN".toList, Value.vlist m.countries),
    ("STORY_LINE".toList, optStrVal m.plot.head?),
    ("IMDb_TITLE_TYPE".toList, optStrVal m.kind),
    ("IMG_POSTER".toList, optStrVal (posterOf m)),
    ("ACTORS".toList, Value.vlist ((mkCastList m).map Prod.fst)),
    ("DIRECTORS".toList, Value.vlist m.directors),
    ("WRITERS".toList, Value.vlist m.writers),
    ("IMDB_URL".toList,
      Value.vstr ("https://www.imdb.com/title/".toList ++ imdb_id ++ ['/'])) ]

/-- The response of `/movie/{imdb_id}` (src/main.py lines 150-159): the
flattened `meta` dictionary plus the `tags` dictionary. -/
structure MovieResponse where
  metaTitle : Option Str
  metaYear : Option Int
  metaImdbId : Str
  metaKind : Option Str
  metaPoster : Option Str
  tags : TagMap
  deriving DecidableEq

/-- The pure part of `movie_details` after the fetch (src/main.py
lines 101-160). -/
def buildMovieResponse (m : RawMovie) (imdb_id : Str) : MovieResponse :=
  ⟨m.title, m.year, imdb_id, m.kind, posterOf m, mkTags m imdb_id⟩

/-- The `/movie/{imdb_id}` endpoint `movie_details` (src/main.py
lines 97-160). -/
def movie_details (provider : Str → Except Str (Option RawMovie))
    (imdb_id : Str) : Except HTTPError MovieResponse :=
  match getMovieByImdbId provider imdb_id with
  | Except.error e => Except.error e
  | Except.ok m => Except.ok (buildMovieResponse m imdb_id)

/-- The `/poster/{imdb_id}` endpoint `get_poster` (src/main.py lines 200-219).
`fetch` stands for `requests.get(poster, stream=True)`, returning a status
code and the body bytes; a success is the body together with the download
filename `f"{imdb_id}.jpg"`. A falsy poster (`None` or `""`) yields the 404
before any fetch is attempted. -/
def get_poster (provider : Str → Except Str (Option RawMovie))
    (fetch : Str → Nat × List Nat) (imdb_id : Str) :
    Except HTTPError (List Nat × Str) :=
  match getMovieByImdbId provider imdb_id with
  | Except.error e => Except.error e
  | Except.ok m =>
    match posterOf m with
    | none => Except.error ⟨404, "No poster found".toList⟩
    | some url =>
      if url = [] then Except.error ⟨404, "No poster found".toList⟩
      else
        match fetch url with
        | (status, body) =>
          if status = 200 then Except.ok (body, imdb_id ++ ".jpg".toList)
          else Except.error ⟨500, "Poster fetch failed".toList⟩

/-- The `"i"` field of one suggestion item (src/main.py lines 62-67): a JSON
list (whose first element is the image url), a JSON object (with an optional
`imageUrl`), or some other JSON value. -/
inductive ImgField where
  | ilist (xs : List Str)
  | idict (imageUrl : Option Str)
  | iother
  deriving DecidableEq

/-- One item of the suggestion array `data.get("d", [])` consumed by the
`/search` loop (src/main.py lines 56-60): fields `l`, `y`, `id`, `qid`, `q`
and optionally `i`. -/
structure SearchItem where
  l : Option Str
  y : Option Int
  id : Option Str
  qid : Option Str
  q : Option Str
  i : Option ImgField
  deriving DecidableEq

/-- The `SearchResult` pydantic model (src/main.py lines 27-32). -/
structure SearchResult where
  title : Str
  year : Option Int
  imdb_id : Str
  kind : Str
  poster : Option Str
  deriving DecidableEq

/-- Python `a or b` where `b` is a plain string default. -/
def pyOrStr (a : Option Str) (b : Str) : Str :=
  if truthy a then a.getD [] else b

/-- Poster extraction from the `"i"` field (src/main.py lines 61-67). `none`
models the uncaught `IndexError` of `item["i"][0]` on an empty list (the loop
is outside the `try` block); `some p` is the computed optional poster url. -/
def itemPoster : Option ImgField → Option (Option Str)
  | none => some none
  | some (ImgField.ilist []) => none
  | some (ImgField.ilist (x :: _)) => some (some x)
  | some (ImgField.idict u) => some u
  | some ImgField.iother => some none

/-- One iteration of the `/search` result loop (src/main.py lines 56-76):
`title or ""`, `imdb_id or ""`, `kind = qid or q or "movie"`, and the poster
extraction. `none` propagates an uncaught exception. -/
def mkSearchResult (item : SearchItem) : Option SearchResult :=
  match itemPoster item.i with
  | none => none
  | some poster =>
    some ⟨pyOrStr item.l [], item.y, pyOrStr item.id [],
      pyOrStr item.qid (pyOrStr item.q "movie".toList), poster⟩

/-- The whole result loop over the truncated item list. -/
def buildResults : List SearchItem → Option (List SearchResult)
  | [] => some []
  | it :: rest =>
    match mkSearchResult it, buildResults rest with
    | some r, some rs => some (r :: rs)
    | _, _ => none

/-- Python list slicing `l[:limit]` for an `int` bound: a nonnegative bound
keeps the first `limit` elements, a negative bound drops the last `-limit`. -/
def pySliceTo (l : List SearchItem) (limit : Int) : List SearchItem :=
  if 0 ≤ limit then l.take limit.toNat
  else l.take (l.length - (-limit).toNat)

/-- Outcome of the `/search` endpoint: an `HTTPException`, an uncaught Python
exception, or a JSON result list. -/
inductive SearchOutcome where
  | httpErr (status : Nat) (detail : Str)
  | crash
  | ok (rs : List SearchResult)
  deriving DecidableEq

/-- The `/search` endpoint `search` (src/main.py lines 39-79), downstream of
the provider call: given the parsed suggestion array `results` and the
`limit` query parameter, truncate to `results[:limit]`, build the output
list, and raise 404 "No results found." when `out` is empty. -/
def search (results : List SearchItem) (limit : Int) : SearchOutcome :=
  match buildResults (pySliceTo results limit) with
  | none => SearchOutcome.crash
  | some out =>
    if out.isEmpty then SearchOutcome.httpErr 404 ("No results found.".toList)
    else SearchOutcome.ok out

/-- A string contains a valid placeholder when `TAG_PATTERN` matches at some
position, i.e. a `#` immediately followed by a `[A-Z0-9_]` character, or a
`{` followed by a nonempty `}`-free run closed by `}`. -/
def hasPH : List Char → Bool
  | [] => false
  | c :: cs => (matchAt (c :: cs)).isSome || hasPH cs

/-- A lookup outcome the spec calls "absent or empty/null": the key is
missing, or it maps to `None`, the empty string, or the empty list. -/
def emptyVal (o : Option Value) : Prop :=
  o = none ∨ o = some Value.vnone ∨ o = some (Value.vstr []) ∨
    o = some (Value.vlist [])

instance (o : Option Value) : Decidable (emptyVal o) := by
  unfold emptyVal
  infer_instance

/-- The fixed key set of the `tags` dictionary, as listed in the spec. -/
def fixedTagKeys : List Str :=
  [ "TITLE".toList, "YEAR".toList, "RATING".toList, "VOTES".toList,
    "DURATION".toList, "GENRE".toList, "LANGUAGE".toList,
    "COUNTRY_OF_ORIGIN".toList, "STORY_LINE".toList, "IMDb_TITLE_TYPE".toList,
    "IMG_POSTER".toList, "ACTORS".toList, "DIRECTORS".toList,
    "WRITERS".toList, "IMDB_URL".toList ]

/-- A concrete tag map exercising scalar, numeric, list, `None`, empty-string
and empty-list values, used to instantiate the renderer theorems. -/
def demoTags : TagMap :=
  [ ("TITLE".toList, Value.vstr "Fight Club".toList),
    ("YEAR".toList, Value.vint 1999),
    ("GENRE".toList, Value.vlist ["Drama".toList, "Thriller".toList]),
    ("X".toList, Value.vstr ('#' :: "TITLE rules".toList)),
    ("NONE".toList, Value.vnone),
    ("EMPTY".toList, Value.vstr []),
    ("ELIST".toList, Value.vlist []) ]

/-- A concrete provider movie with 22 cast entries (to exercise the cast
truncation) and two resolvable poster fields. -/
def demoMovie : RawMovie :=
  ⟨some "The Matrix".toList, some 1999, some "8.7".toList, some 2000000,
    ["136".toList], ["Action".toList, "Sci-Fi".toList],
    ["A hacker learns the truth.".toList], ["English".toList],
    ["USA".toList], some "http://img/full.jpg".toList,
    some "http://img/cover.jpg".toList, none, some "movie".toList,
    (List.range 22).map (fun i => ⟨'A' :: Nat.toDigits 10 i, some (Nat.toDigits 10 i)⟩),
    ["Lana Wachowski".toList], ["Lilly Wachowski".toList]⟩

/-- A provider that returns `demoMovie` for every identifier. -/
def demoProvider : Str → Except Str (Option RawMovie) :=
  fun _ => Except.ok (some demoMovie)

/-- A concrete provider movie with no resolvable poster field (one field is
the empty string, the other two are absent). -/
def noPosterMovie : RawMovie :=
  ⟨some "Obscure".toList, none, none, none, [], [], [], [], [],
    some [], none, none, none, [], [], []⟩

/-- A provider that returns `noPosterMovie` for every identifier. -/
def noPosterProvider : Str → Except Str (Option RawMovie) :=
  fun _ => Except.ok (some noPosterMovie)

/-- A fetch stub that always succeeds with a two-byte body. -/
def demoFetch : Str → Nat × List Nat :=
  fun _ => (200, [255, 216])

/-- Dropping a prefix by a predicate never lengthens a list. -/
theorem dropWhile_len_le (p : Char → Bool) (l : List Char) :
    (l.dropWhile p).length ≤ l.length := by
  induction l with
  | nil => simp
  | cons c cs ih =>
    by_cases h : p c
    · simp only [List.dropWhile, h, List.length_cons]
      exact Nat.le_succ_of_le ih
    · simp [List.dropWhile, h]

/-- A successful `TAG_PATTERN` match consumes at least one character, so the
remainder is strictly shorter than the input. -/
theorem matchAt_length {l : List Char} {k rest : Str}
    (h : matchAt l = some (k, rest)) : rest.length < l.length := by
  match l with
  | [] => simp [matchAt] at h
  | c :: cs =>
    have hd : (cs.dropWhile isTagChar).length ≤ cs.length := dropWhile_len_le _ _
    have hd2 : (cs.dropWhile (fun x => x != '}')).length ≤ cs.length :=
      dropWhile_len_le _ _
    simp only [matchAt] at h
    split at h
    · split at h
      · exact absurd h (by simp)
      · cases h
        simpa using Nat.lt_succ_of_le hd
    · split at h
      · split at h
        · exact absurd h (by simp)
        · split at h
          · exact absurd h (by simp)
          · rename_i heq
            cases h
            rw [heq] at hd2
            simp only [List.length_cons] at hd2 ⊢
            omega
      · exact absurd h (by simp)

/-- Any fuel at least the input length gives the same result as any other:
the fuel in `renderFuel` is immaterial once sufficient. -/
theorem renderFuel_eq_of_le (tags : TagMap) :
    ∀ (f g : Nat) (l : List Char), l.length ≤ f → l.length ≤ g →
      renderFuel tags f l = renderFuel tags g l := by
  intro f
  induction f with
  | zero =>
    intro g l hf _
    have : l = [] := List.eq_nil_of_length_eq_zero (Nat.le_zero.mp hf)
    subst this
    cases g <;> rfl
  | succ f ih =>
    intro g l hf hg
    match l with
    | [] => cases g <;> rfl
    | c :: cs =>
      match g with
      | 0 => simp at hg
      | g + 1 =>
        simp only [renderFuel]
        cases hm : matchAt (c :: cs) with
        | some pr =>
          obtain ⟨k, rest⟩ := pr
          have hlt := matchAt_length hm
          simp only [List.length_cons] at hf hg hlt
          have h1 : rest.length ≤ f := by omega
          have h2 : rest.length ≤ g := by omega
          show replacer tags k ++ renderFuel tags f rest =
            replacer tags k ++ renderFuel tags g rest
          rw [ih g rest h1 h2]
        | none =>
          simp only [List.length_cons] at hf hg
          show c :: renderFuel tags f cs = c :: renderFuel tags g cs
          rw [ih g cs (by omega) (by omega)]

/-- Rendering the empty template gives the empty string. -/
theorem render_nil (tags : TagMap) : render tags [] = [] := rfl

/-- Unfolding `render` at a match: replace it and continue after it. -/
theorem render_match (tags : TagMap) {l k rest : Str}
    (h : matchAt l = some (k, rest)) :
    render tags l = replacer tags k ++ render tags rest := by
  match l with
  | [] => simp [matchAt] at h
  | c :: cs =>
    have hlt := matchAt_length h
    show renderFuel tags (c :: cs).length (c :: cs) = _
    simp only [List.length_cons, renderFuel, h]
    congr 1
    exact renderFuel_eq_of_le tags cs.length rest.length rest
      (by simp only [List.length_cons] at hlt; omega) le_rfl

/-- Unfolding `render` at a non-match: emit the character and move on. -/
theorem render_nomatch (tags : TagMap) {c : Char} {cs : Str}
    (h : matchAt (c :: cs) = none) :
    render tags (c :: cs) = c :: render tags cs := by
  show renderFuel tags (c :: cs).length (c :: cs) = _
  simp only [List.length_cons, renderFuel, h]
  rfl

/-- Taking by a predicate every element satisfies returns the whole list. -/
theorem takeWhile_all {p : Char → Bool} :
    ∀ {l : Str}, (∀ c ∈ l, p c = true) → l.takeWhile p = l := by
  intro l h
  induction l with
  | nil => rfl
  | cons c cs ih =>
    have hc : p c = true := h c (by simp)
    simp [List.takeWhile, hc, ih (fun x hx => h x (by simp [hx]))]

/-- Dropping by a predicate every element satisfies returns the empty list. -/
theorem dropWhile_all {p : Char → Bool} :
    ∀ {l : Str}, (∀ c ∈ l, p c = true) → l.dropWhile p = [] := by
  intro l h
  induction l with
  | nil => rfl
  | cons c cs ih =>
    have hc : p c = true := h c (by simp)
    simp [List.dropWhile, hc, ih (fun x hx => h x (by simp [hx]))]

/-- Dropping by a predicate no element satisfies returns the list unchanged. -/
theorem dropWhile_none_of {p : Char → Bool} :
    ∀ {l : Str}, (∀ c ∈ l, p c = false) → l.dropWhile p = l := by
  intro l h
  cases l with
  | nil => rfl
  | cons c cs => simp [List.dropWhile, h c (by simp)]

/-- Taking up to the first failing element from `n ++ x :: rest` keeps
exactly `n` when every element of `n` passes and `x` fails. -/
theorem takeWhile_append_stop {p : Char → Bool} {n : Str}
    (hn : ∀ c ∈ n, p c = true) {x : Char} (hx : p x = false) (rest : Str) :
    ((n ++ x :: rest).takeWhile p) = n := by
  induction n with
  | nil => simp [List.takeWhile, hx]
  | cons c cs ih =>
    have hc : p c = true := hn c (by simp)
    simp only [List.cons_append, List.takeWhile, hc]
    simp [ih (fun y hy => hn y (by simp [hy]))]

/-- Dropping up to the first failing element from `n ++ x :: rest` leaves
exactly `x :: rest` when every element of `n` passes and `x` fails. -/
theorem dropWhile_append_stop {p : Char → Bool} {n : Str}
    (hn : ∀ c ∈ n, p c = true) {x : Char} (hx : p x = false) (rest : Str) :
    ((n ++ x :: rest).dropWhile p) = x :: rest := by
  induction n with
  | nil => simp [List.dropWhile, hx]
  | cons c cs ih =>
    have hc : p c = true := hn c (by simp)
    simp only [List.cons_append, List.dropWhile, hc]
    simp [ih (fun y hy => hn y (by simp [hy]))]

/-- A character of the class `[A-Z0-9_]` is unchanged by `str.upper`. -/
theorem pyToUpper_tagChar {c : Char} (h : isTagChar c = true) :
    pyToUpper c = c := by
  unfold isTagChar at h
  unfold pyToUpper
  simp only [Bool.or_eq_true, Bool.and_eq_true, decide_eq_true_eq,
    beq_iff_eq] at h
  have : ¬(97 ≤ c.toNat ∧ c.toNat ≤ 122) := by omega
  simp [this]

/-- A character of the class `[A-Z0-9_]` is not Python whitespace. -/
theorem isPySpace_tagChar {c : Char} (h : isTagChar c = true) :
    isPySpace c = false := by
  unfold isTagChar at h
  unfold isPySpace
  simp only [Bool.or_eq_true, Bool.and_eq_true, decide_eq_true_eq,
    beq_iff_eq] at h ⊢
  simp only [Bool.or_eq_false_iff, beq_eq_false_iff_ne]
  omega

/-- A character of the class `[A-Z0-9_]` is not the closing brace. -/
theorem tagChar_ne_rbrace {c : Char} (h : isTagChar c = true) :
    (c != '}') = true := by
  simp only [bne_iff_ne, ne_eq]
  intro hc
  subst hc
  exact absurd h (by decide)

/-- A run of `[A-Z0-9_]` characters is already a normalized key: uppercasing
and stripping leave it unchanged. -/
theorem pyNormalizeKey_tagRun {k : Str} (h : ∀ c ∈ k, isTagChar c = true) :
    pyNormalizeKey k = k := by
  unfold pyNormalizeKey pyStrip
  have hm : k.map pyToUpper = k := by
    have : ∀ c ∈ k, pyToUpper c = c := fun c hc => pyToUpper_tagChar (h c hc)
    calc k.map pyToUpper = k.map id := List.map_congr_left this
    _ = k := List.map_id k
  rw [hm]
  have h1 : k.dropWhile isPySpace = k :=
    dropWhile_none_of (fun c hc => isPySpace_tagChar (h c hc))
  rw [h1]
  have h2 : k.reverse.dropWhile isPySpace = k.reverse :=
    dropWhile_none_of (fun c hc =>
      isPySpace_tagChar (h c (List.mem_reverse.mp hc)))
  rw [h2, List.reverse_reverse]

/-- The hash alternative on a template that is exactly `#` followed by a
nonempty tag-character run: the run is captured and nothing remains. -/
theorem matchAt_hash_all {k : Str} (hne : k ≠ [])
    (hk : ∀ c ∈ k, isTagChar c = true) :
    matchAt ('#' :: k) = some (k, []) := by
  simp [matchAt, takeWhile_all hk, dropWhile_all hk, hne]

/-- The brace alternative on `{` ++ name ++ `}` ++ rest with a nonempty
`}`-free name: the name is captured and scanning resumes at `rest`. -/
theorem matchAt_brace {n : Str} (hne : n ≠ [])
    (hn : ∀ c ∈ n, (c != '}') = true) (rest : Str) :
    matchAt ('{' :: (n ++ '}' :: rest)) = some (n, rest) := by
  have hx : ('}' != '}') = false := by decide
  have ht := takeWhile_append_stop hn hx rest
  have hd := dropWhile_append_stop hn hx rest
  simp [matchAt, ht, hd, hne]

/-- No alternative of `TAG_PATTERN` can start at a character other than `#`
or `{`. -/
theorem matchAt_other {c : Char} (hc : c ≠ '#') (hb : c ≠ '{')
    (cs : List Char) : matchAt (c :: cs) = none := by
  simp [matchAt, hc, hb]

/-- C1: rendering a placeholder, in either syntax, whose normalized key is
absent from the tag map or mapped to an empty or `None` value substitutes
the empty string; the literal placeholder text is consumed, not kept, and
the rendering function is total so no error can arise. -/
theorem C1_empty_or_absent_renders_empty (tags : TagMap) (k n : Str)
    (hk : k ≠ [] ∧ ∀ c ∈ k, isTagChar c = true)
    (hn : n ≠ [] ∧ ∀ c ∈ n, c ≠ '}')
    (h1 : emptyVal (lookupTag tags k))
    (h2 : emptyVal (lookupTag tags (pyNormalizeKey n))) :
    render tags ('#' :: k) = [] ∧ render tags ('{' :: (n ++ ['}'])) = [] := by
  obtain ⟨hkne, hkall⟩ := hk
  obtain ⟨hnne, hnall⟩ := hn
  constructor
  · rw [render_match tags (matchAt_hash_all hkne hkall), render_nil,
      List.append_nil]
    unfold replacer
    rw [pyNormalizeKey_tagRun hkall]
    rcases h1 with h | h | h | h <;> rw [h] <;> rfl
  · have hb := matchAt_brace hnne
      (fun c hc => bne_iff_ne.mpr (hnall c hc)) ([])
    rw [render_match tags hb, render_nil, List.append_nil]
    unfold replacer
    rcases h2 with h | h | h | h <;> rw [h] <;> rfl

/-- C1 witness: the key NOPE is absent from `demoTags` and the key EMPTY
holds the empty string, so both placeholder syntaxes render empty. -/
theorem C1_witness :
    render demoTags ('#' :: "NOPE".toList) = [] ∧
    render demoTags ('{' :: ("empty".toList ++ ['}'])) = [] :=
  C1_empty_or_absent_renders_empty demoTags ("NOPE".toList) ("empty".toList)
    (by decide) (by decide) (by decide) (by decide)

/-- C2: rendering a placeholder, in either syntax, whose tag value is a
sequence of more than one string substitutes the elements joined by exactly
the two-character separator comma-space, in the original element order. -/
theorem C2_sequence_comma_space_join (tags : TagMap) (k n : Str)
    (xs ys : List Str)
    (hk : k ≠ [] ∧ ∀ c ∈ k, isTagChar c = true)
    (hn : n ≠ [] ∧ ∀ c ∈ n, c ≠ '}')
    (hxs : lookupTag tags k = some (Value.vlist xs)) (_hxl : 1 < xs.length)
    (hys : lookupTag tags (pyNormalizeKey n) = some (Value.vlist ys))
    (_hyl : 1 < ys.length) :
    render tags ('#' :: k) = List.intercalate (',' :: ' ' :: []) xs ∧
    render tags ('{' :: (n ++ ['}'])) =
      List.intercalate (',' :: ' ' :: []) ys := by
  obtain ⟨hkne, hkall⟩ := hk
  obtain ⟨hnne, hnall⟩ := hn
  constructor
  · rw [render_match tags (matchAt_hash_all hkne hkall), render_nil,
      List.append_nil]
    unfold replacer
    rw [pyNormalizeKey_tagRun hkall, hxs]
    rfl
  · have hb := matchAt_brace hnne
      (fun c hc => bne_iff_ne.mpr (hnall c hc)) ([])
    rw [render_match tags hb, render_nil, List.append_nil]
    unfold replacer
    rw [hys]
    rfl

/-- C2 witness: GENRE holds the two-element sequence Drama, Thriller and both
placeholder syntaxes (the brace one with lowercase, padded name) render the
comma-space join in order. -/
theorem C2_witness :
    render demoTags ('#' :: "GENRE".toList) =
      List.intercalate (',' :: ' ' :: [])
        ["Drama".toList, "Thriller".toList] ∧
    render demoTags ('{' :: (" genre ".toList ++ ['}'])) =
      List.intercalate (',' :: ' ' :: [])
        ["Drama".toList, "Thriller".toList] :=
  C2_sequence_comma_space_join demoTags ("GENRE".toList) (" genre ".toList)
    ["Drama".toList, "Thriller".toList] ["Drama".toList, "Thriller".toList]
    (by decide) (by decide) (by decide) (by decide) (by decide) (by decide)

/-- C3: rendering is single-pass, left to right and non-recursive: a brace
placeholder whose tag value is the scalar string `v` is replaced by `v`
verbatim, whatever `v` contains (in particular text of placeholder shape
such as a value containing a hash tag), and scanning resumes after the
closing brace, never inside the substituted text. -/
theorem C3_single_pass_no_rescan (tags : TagMap) (n v suffix : Str)
    (hn : n ≠ [] ∧ ∀ c ∈ n, c ≠ '}')
    (hv : lookupTag tags (pyNormalizeKey n) = some (Value.vstr v)) :
    render tags ('{' :: (n ++ '}' :: suffix)) = v ++ render tags suffix := by
  obtain ⟨hnne, hnall⟩ := hn
  rw [render_match tags
    (matchAt_brace hnne (fun c hc => bne_iff_ne.mpr (hnall c hc)) suffix)]
  unfold replacer
  rw [hv]
  rfl

/-- C3 witness: the tag X holds a value that itself contains the hash
placeholder shape for TITLE; rendering substitutes it verbatim and the
embedded placeholder is not expanded even though TITLE is present. -/
theorem C3_witness :
    render demoTags ('{' :: ("X".toList ++ '}' :: "!".toList)) =
      ('#' :: "TITLE rules".toList) ++ render demoTags ("!".toList) :=
  C3_single_pass_no_rescan demoTags ("X".toList)
    ('#' :: "TITLE rules".toList) ("!".toList) (by decide) (by decide)

/-- C4: a template in which the pattern matches at no position (no hash
followed by a tag character, no brace pair with nonempty brace-free
content) renders to itself, so rendering is idempotent on it and stray
hash and brace characters pass through as literals. -/
theorem C4_no_placeholder_identity (tags : TagMap) (s : Str)
    (h : hasPH s = false) :
    render tags s = s ∧ render tags (render tags s) = render tags s := by
  have main : ∀ t : Str, hasPH t = false → render tags t = t := by
    intro t
    induction t with
    | nil => intro _; rfl
    | cons c cs ih =>
      intro ht
      unfold hasPH at ht
      simp only [Bool.or_eq_false_iff] at ht
      obtain ⟨ht1, ht2⟩ := ht
      have hm : matchAt (c :: cs) = none := by
        cases hmm : matchAt (c :: cs) with
        | none => rfl
        | some pr => rw [hmm] at ht1; simp at ht1
      rw [render_nomatch tags hm, ih ht2]
  have h1 := main s h
  exact ⟨h1, by rw [h1, h1]⟩

/-- C4 witness: a template full of stray hash and brace characters (a hash
followed by lowercase, an unclosed brace, a bare closing brace) renders to
itself twice over. -/
theorem C4_witness :
    render demoTags
        ('}' :: ' ' :: '{' :: ' ' :: '#' :: 'x' :: ' ' :: '#' :: []) =
      ('}' :: ' ' :: '{' :: ' ' :: '#' :: 'x' :: ' ' :: '#' :: []) ∧
    render demoTags
        (render demoTags
          ('}' :: ' ' :: '{' :: ' ' :: '#' :: 'x' :: ' ' :: '#' :: [])) =
      render demoTags
        ('}' :: ' ' :: '{' :: ' ' :: '#' :: 'x' :: ' ' :: '#' :: []) :=
  C4_no_placeholder_identity demoTags
    ('}' :: ' ' :: '{' :: ' ' :: '#' :: 'x' :: ' ' :: '#' :: []) (by decide)

/-- C9 counterexample: the four-character template open-brace A open-brace
close-brace contains the two-character sequence open-brace close-brace, yet
rendering it under the empty tag map yields the empty string, not a string
with that sequence left verbatim: the brace alternative matches the whole
template with captured name A-open-brace, absorbing the pair. -/
theorem C9_counterexample :
    render ([] : TagMap) ('{' :: 'A' :: '{' :: '}' :: []) = ([] : Str) ∧
    ('{' :: 'A' :: [] : Str) ++ ('{' :: '}' :: []) ++ ([] : Str) =
      ('{' :: 'A' :: '{' :: '}' :: []) := by
  exact ⟨by decide, by decide⟩

/-- C9 amended: rendering a template that begins with the brace pair with
empty name leaves that pair verbatim and continues with the rest of the
template, because the brace grammar requires at least one character between
the delimiters; a later such pair can instead be absorbed into an earlier
brace placeholder whose captured name contains an open brace. -/
theorem C9_empty_brace_pair_verbatim (tags : TagMap) (rest : Str) :
    render tags ('{' :: '}' :: rest) = '{' :: '}' :: render tags rest := by
  have h1 : matchAt ('{' :: '}' :: rest) = none := by
    simp [matchAt, List.takeWhile]
  have h2 : matchAt ('}' :: rest) = none :=
    matchAt_other (by decide) (by decide) rest
  rw [render_nomatch tags h1, render_nomatch tags h2]

/-- C5 counterexample: for the bare identifier 0133093 the builder succeeds,
but the IMDB_URL tag embeds the identifier exactly as passed, without the
tt prefix the claim says is re-added: the produced URL differs from the
tt-prefixed one. -/
theorem C5_counterexample :
    movie_details demoProvider ("0133093".toList) =
      Except.ok (buildMovieResponse demoMovie ("0133093".toList)) ∧
    lookupTag (buildMovieResponse demoMovie ("0133093".toList)).tags
        ("IMDB_URL".toList) =
      some (Value.vstr ("https://www.imdb.com/title/0133093/".toList)) ∧
    ("https://www.imdb.com/title/0133093/".toList : Str) ≠
      ("https://www.imdb.com/title/tt0133093/".toList : Str) := by
  refine ⟨rfl, by decide, by decide⟩

/-- C5 amended: the builder accepts an identifier with or without the tt
prefix and strips the prefix before querying the provider, so both forms
query the same record; the IMDB_URL tag interpolates the identifier exactly
as the caller passed it (so it carries the tt prefix only when the input
did). -/
theorem C5_amended_prefix_handling
    (provider : Str → Except Str (Option RawMovie)) (x : Str)
    (hx : ("tt".toList).isPrefixOf x = false) :
    stripTT ("tt".toList ++ x) = x ∧ stripTT x = x ∧
    getMovieByImdbId provider ("tt".toList ++ x) =
      getMovieByImdbId provider x ∧
    (∀ (imdb_id : Str) (resp : MovieResponse),
      movie_details provider imdb_id = Except.ok resp →
      lookupTag resp.tags ("IMDB_URL".toList) =
        some (Value.vstr
          ("https://www.imdb.com/title/".toList ++ imdb_id ++ ['/']))) := by
  have htt : ("tt".toList : Str) = 't' :: 't' :: [] := rfl
  have h1 : stripTT ("tt".toList ++ x) = x := by
    rw [htt]
    simp [stripTT, htt, List.isPrefixOf]
  have h2 : stripTT x = x := by
    unfold stripTT
    rw [if_neg (by rw [hx]; decide)]
  refine ⟨h1, h2, ?_, ?_⟩
  · unfold getMovieByImdbId
    rw [h1, h2]
  · intro imdb_id resp h
    unfold movie_details at h
    cases hg : getMovieByImdbId provider imdb_id with
    | error e => rw [hg] at h; exact absurd h (by simp)
    | ok m =>
      rw [hg] at h
      have h3 : Except.ok (buildMovieResponse m imdb_id) =
          (Except.ok resp : Except HTTPError MovieResponse) := h
      injection h3 with h3
      rw [← h3]
      rfl

/-- C5 witness: with the tt prefix stripped, the prefixed and bare forms of
the identifier 0133093 are routed to the same provider query and obtain the
same record. -/
theorem C5_witness :
    stripTT ("tt0133093".toList) = "0133093".toList ∧
    getMovieByImdbId demoProvider ("tt0133093".toList) =
      getMovieByImdbId demoProvider ("0133093".toList) := by
  have h := C5_amended_prefix_handling demoProvider ("0133093".toList)
    (by decide)
  have he : ("tt0133093".toList : Str) = "tt".toList ++ "0133093".toList :=
    by decide
  rw [he]
  exact ⟨h.1, h.2.2.1⟩

/-- C6: the built record's ACTORS tag lists exactly the names of the first
20 provider cast entries in provider order, hence never more than 20 and
all of them when the provider supplies fewer; the internal cast list pairs
each retained entry's display name with its optional person identifier,
entrywise equal to the provider entry at the same index. -/
theorem C6_cast_first20 (provider : Str → Except Str (Option RawMovie))
    (imdb_id : Str) (movie : RawMovie) (resp : MovieResponse)
    (hp : provider (stripTT imdb_id) = Except.ok (some movie))
    (h : movie_details provider imdb_id = Except.ok resp) :
    lookupTag resp.tags ("ACTORS".toList) =
      some (Value.vlist ((movie.cast.take 20).map (fun p => p.name))) ∧
    (∀ xs, lookupTag resp.tags ("ACTORS".toList) =
        some (Value.vlist xs) →
      xs.length ≤ 20 ∧
        (movie.cast.length ≤ 20 → xs.length = movie.cast.length)) ∧
    (mkCastList movie).length = min 20 movie.cast.length ∧
    (∀ i : Nat, i < 20 →
      (mkCastList movie)[i]? =
        (movie.cast[i]?).map (fun p => (p.name, p.personID))) := by
  have hresp : resp = buildMovieResponse movie imdb_id := by
    unfold movie_details getMovieByImdbId at h
    rw [hp] at h
    have h3 : Except.ok (buildMovieResponse movie imdb_id) =
        (Except.ok resp : Except HTTPError MovieResponse) := h
    injection h3 with h3
    exact h3.symm
  subst hresp
  have hact : lookupTag (buildMovieResponse movie imdb_id).tags
      ("ACTORS".toList) =
      some (Value.vlist ((mkCastList movie).map Prod.fst)) := rfl
  have hmap : (mkCastList movie).map Prod.fst =
      (movie.cast.take 20).map (fun p => p.name) := by
    unfold mkCastList
    rw [List.map_map]
    rfl
  refine ⟨by rw [hact, hmap], ?_, ?_, ?_⟩
  · intro xs hxs
    rw [hact, hmap] at hxs
    injection hxs with hxs
    injection hxs with hxs
    constructor
    · rw [← hxs]
      simp [List.length_take]
    · intro hle
      rw [← hxs]
      simp [List.length_take]
      omega
  · unfold mkCastList
    simp [List.length_take]
  · intro i hi
    unfold mkCastList
    rw [List.getElem?_map, List.getElem?_take_of_lt hi]

/-- C6 witness: the demo provider supplies 22 cast entries; the ACTORS tag
of the built record holds the first 20 names and the internal cast list has
length min 20 22. -/
theorem C6_witness :
    lookupTag (buildMovieResponse demoMovie ("tt1".toList)).tags
        ("ACTORS".toList) =
      some (Value.vlist ((demoMovie.cast.take 20).map (fun p => p.name))) ∧
    (mkCastList demoMovie).length = min 20 demoMovie.cast.length := by
  have h := C6_cast_first20 demoProvider ("tt1".toList) demoMovie
    (buildMovieResponse demoMovie ("tt1".toList)) rfl rfl
  exact ⟨h.1, h.2.2.1⟩

/-- C7: poster resolution tries full-size cover url, then cover url, then
cover, the first truthy (non-empty, non-None) field winning; and when none
of the three is truthy the poster endpoint answers 404 No poster found, for
every fetch function, so no empty success response is ever produced. -/
theorem C7_poster_priority_and_404
    (provider : Str → Except Str (Option RawMovie))
    (fetch : Str → Nat × List Nat) (imdb_id : Str) (m : RawMovie)
    (hp : provider (stripTT imdb_id) = Except.ok (some m)) :
    (truthy m.fullSizeCoverUrl = true → posterOf m = m.fullSizeCoverUrl) ∧
    (truthy m.fullSizeCoverUrl = false → truthy m.coverUrl = true →
      posterOf m = m.coverUrl) ∧
    (truthy m.fullSizeCoverUrl = false → truthy m.coverUrl = false →
      posterOf m = m.cover) ∧
    (truthy m.fullSizeCoverUrl = false → truthy m.coverUrl = false →
      truthy m.cover = false →
      get_poster provider fetch imdb_id =
        Except.error ⟨404, "No poster found".toList⟩) := by
  have hg : getMovieByImdbId provider imdb_id = Except.ok m := by
    unfold getMovieByImdbId
    rw [hp]
  have hchain : truthy m.fullSizeCoverUrl = false →
      truthy m.coverUrl = false → posterOf m = m.cover := by
    intro hf hc
    unfold posterOf pyOrS
    simp [hf, hc]
  refine ⟨?_, ?_, hchain, ?_⟩
  · intro hf
    unfold posterOf pyOrS
    simp [hf]
  · intro hf hc
    unfold posterOf pyOrS
    simp [hf, hc]
  · intro hf hc hcv
    have hpm := hchain hf hc
    simp only [get_poster, hg, hpm]
    cases hcc : m.cover with
    | none => rfl
    | some s =>
      have hs : s = [] := by
        rw [hcc] at hcv
        unfold truthy at hcv
        simpa using hcv
      simp [hs]

/-- C7 witness: a movie whose full-size cover url is the empty string and
whose other poster fields are absent resolves no poster, and the endpoint
answers 404 even though the fetch stub would succeed. -/
theorem C7_witness :
    get_poster noPosterProvider demoFetch ("tt9".toList) =
      Except.error ⟨404, "No poster found".toList⟩ :=
  (C7_poster_priority_and_404 noPosterProvider demoFetch ("tt9".toList)
    noPosterMovie rfl).2.2.2 (by decide) (by decide) (by decide)

/-- C8: every successfully built record's tag map contains all fifteen keys
of the fixed key set; a field the provider omits is stored as a None value
(shown for TITLE); and the renderer's replacement treats a missing key and
a key mapped to None identically, both rendering empty. -/
theorem C8_tagmap_keys_invariant
    (provider : Str → Except Str (Option RawMovie))
    (imdb_id : Str) (resp : MovieResponse)
    (h : movie_details provider imdb_id = Except.ok resp) :
    (∀ k ∈ fixedTagKeys, (lookupTag resp.tags k).isSome = true) ∧
    (∀ m : RawMovie, provider (stripTT imdb_id) = Except.ok (some m) →
      m.title = none →
      lookupTag resp.tags ("TITLE".toList) = some Value.vnone) ∧
    (∀ (tags1 tags2 : TagMap) (raw : Str),
      lookupTag tags1 (pyNormalizeKey raw) = none →
      lookupTag tags2 (pyNormalizeKey raw) = some Value.vnone →
      replacer tags1 raw = replacer tags2 raw ∧ replacer tags1 raw = []) := by
  obtain ⟨m0, hm0, hresp⟩ : ∃ m0,
      getMovieByImdbId provider imdb_id = Except.ok m0 ∧
      resp = buildMovieResponse m0 imdb_id := by
    unfold movie_details at h
    cases hg : getMovieByImdbId provider imdb_id with
    | error e => rw [hg] at h; exact absurd h (by simp)
    | ok m =>
      rw [hg] at h
      have h3 : Except.ok (buildMovieResponse m imdb_id) =
          (Except.ok resp : Except HTTPError MovieResponse) := h
      injection h3 with h3
      exact ⟨m, rfl, h3.symm⟩
  subst hresp
  refine ⟨?_, ?_, ?_⟩
  · intro k hk
    fin_cases hk <;> rfl
  · intro m hm ht
    have hgm : getMovieByImdbId provider imdb_id = Except.ok m := by
      unfold getMovieByImdbId
      rw [hm]
    have hmm := hm0.symm.trans hgm
    injection hmm with hmm
    subst hmm
    have hT : lookupTag (buildMovieResponse m0 imdb_id).tags
        ("TITLE".toList) = some (optStrVal m0.title) := rfl
    rw [hT, ht]
    rfl
  · intro tags1 tags2 raw h1 h2
    unfold replacer
    rw [h1, h2]
    exact ⟨rfl, rfl⟩

/-- C8 witness: the demo record's tag map holds the IMDb_TITLE_TYPE key (in
its mixed-case spelling), and replacing the unknown key NOPE gives the same
empty result whether the key is absent or mapped to None. -/
theorem C8_witness :
    (lookupTag (buildMovieResponse demoMovie ("tt1".toList)).tags
      ("IMDb_TITLE_TYPE".toList)).isSome = true ∧
    replacer demoTags ("NOPE".toList) =
      replacer [(("NOPE".toList : Str), Value.vnone)] ("NOPE".toList) := by
  have h := C8_tagmap_keys_invariant demoProvider ("tt1".toList)
    (buildMovieResponse demoMovie ("tt1".toList)) rfl
  exact ⟨h.1 ("IMDb_TITLE_TYPE".toList) (by decide),
    (h.2.2 demoTags [(("NOPE".toList : Str), Value.vnone)] ("NOPE".toList)
      (by decide) (by decide)).1⟩

/-- C10: with limit 0 the search endpoint truncates the provider hits to the
empty list before the emptiness check, so it raises the 404 No results
found error for every provider result list, hits or not. -/
theorem C10_limit_zero_always_404 (results : List SearchItem) :
    search results 0 =
      SearchOutcome.httpErr 404 ("No results found.".toList) := rfl

end Impy
